import Mathlib

/-!
Verification of the Pangkah Gasing battle-royale simulation core.

The definitions below are a shallow embedding of the canonical game
implementation (the multi-mode, duel-capable variant).  JavaScript numbers
are modelled as rationals; `Math.min` / `Math.max` become `min` / `max`;
the JavaScript idiom `x || 1` on a nonnegative number becomes `normFactor`.
Square roots never need to be computed: every theorem that involves a
Euclidean distance takes the distance as a parameter constrained by
`dist * dist = dx * dx + dy * dy` and `0 ≤ dist`.
-/

namespace Gasing

/-! Tuning constants, copied from the source. -/

def SWEET_LOW : ℚ := 40
def SWEET_HIGH : ℚ := 60
def RPM_DECAY_PER_FRAME : ℚ := 4/10
def RPM_GAIN_PER_PRESS : ℚ := 3
def STARTING_RPM : ℚ := 50
def OUTSIDE_DECAY_MULT : ℚ := 4
def OUTSIDE_GAIN_MULT : ℚ := 15/100
def SAFE_ZONE_INITIAL : ℚ := 360
def SAFE_ZONE_MIN : ℚ := 0
def SAFE_ZONE_SHRINK_PER_SEC : ℚ := 8
def SURVIVAL_SAFE_ZONE_SHRINK : ℚ := 2
def DUEL_SAFE_ZONE_SHRINK : ℚ := 4
def KNOCKBACK_BASE : ℚ := 104/100
def KNOCKBACK_RPM_MULT : ℚ := 10008/10000
def VELOCITY_KNOCKBACK : ℚ := 1015/1000
def BOT_SPIN_GAIN : ℚ := 6
def BOT_EMERGENCY_SPIN_GAIN : ℚ := 10
def BOT_CHAIN_WINDOW : ℤ := 120
def BOT_RPM_FLOOR_INSIDE : ℚ := 20
def BOT_PASSIVE_REGEN : ℚ := 10
def BOSS_RPM : ℚ := 40
def DUEL_COLLISION_MULT : ℚ := 3
def DUEL_LASER_DMG : ℚ := 8
def DUEL_BOMB_DMG : ℚ := 12
def DUEL_ROUND_TRANSITION_FRAMES : ℤ := 180
def DUEL_BOSS_SPIN_GAIN : ℚ := 3
def CX : ℚ := 600
def CY : ℚ := 400

/-! RPM mutation sites.  Each function is one assignment to an rpm field in
the source, with the surrounding clamp. -/

/-- Player spin gain on an accepted alternating key press:
`currentRPM = Math.min(100, currentRPM + gain)`. -/
def playerSpinGainRpm (rpm : ℚ) (outside : Bool) : ℚ :=
  min 100 (rpm + (if outside then RPM_GAIN_PER_PRESS * OUTSIDE_GAIN_MULT else RPM_GAIN_PER_PRESS))

/-- Player per-tick decay: `currentRPM = Math.max(0, currentRPM - decay)`,
with the decay quadrupled outside the safe zone. -/
def playerDecayRpm (rpm : ℚ) (outside : Bool) : ℚ :=
  max 0 (rpm - (if outside then RPM_DECAY_PER_FRAME * OUTSIDE_DECAY_MULT else RPM_DECAY_PER_FRAME))

/-- Drain dealt to the player on a collision:
`(10 + Math.max(0, attackerRPM - defenderRPM) * 0.08) * duelMult`. -/
def playerCollisionDrain (attackerRPM defenderRPM : ℚ) (isDuelBoss : Bool) : ℚ :=
  (10 + max 0 (attackerRPM - defenderRPM) * (8/100)) *
    (if isDuelBoss then DUEL_COLLISION_MULT else 1)

/-- Player rpm after taking a collision hit. -/
def playerHitRpm (rpm attackerRPM : ℚ) (isDuelBoss : Bool) : ℚ :=
  max 0 (rpm - playerCollisionDrain attackerRPM rpm isDuelBoss)

/-- Player rpm after a laser hit. -/
def laserHitRpm (rpm : ℚ) : ℚ := max 0 (rpm - DUEL_LASER_DMG)

/-- Player rpm after a bomb blast with distance falloff factor. -/
def bombHitRpm (rpm falloff : ℚ) : ℚ := max 0 (rpm - DUEL_BOMB_DMG * falloff)

/-- Bot per-tick decay: base decay times 0.35, quadrupled outside the zone. -/
def botDecayRpm (rpm : ℚ) (outside : Bool) : ℚ :=
  max 0 (rpm - (if outside
    then RPM_DECAY_PER_FRAME * (35/100) * OUTSIDE_DECAY_MULT
    else RPM_DECAY_PER_FRAME * (35/100)))

/-- Bot passive regeneration inside the safe zone:
`Math.min(90, rpm + BOT_PASSIVE_REGEN / 60)`. -/
def botRegenRpm (rpm : ℚ) : ℚ := min 90 (rpm + BOT_PASSIVE_REGEN / 60)

/-- Bot rpm floor inside the safe zone. -/
def botFloorRpm (rpm : ℚ) : ℚ :=
  if rpm < BOT_RPM_FLOOR_INSIDE then BOT_RPM_FLOOR_INSIDE else rpm

/-- Bot spin gain (regular, emergency or duel-boss gain):
`Math.min(90, rpm + gain)`, with the outside efficiency factor. -/
def botSpinRpm (rpm gain : ℚ) (outside : Bool) : ℚ :=
  min 90 (rpm + (if outside then gain * OUTSIDE_GAIN_MULT else gain))

/-- Bot rpm after a chain-hit drain: `Math.max(0, rpm - chainDrain)`. -/
def botChainDrainRpm (rpm drain : ℚ) : ℚ := max 0 (rpm - drain)

/-- Arena-mode bot spawn rpm: `50 + Math.random() * 20`. -/
def arenaSpawnRpm (r : ℚ) : ℚ := 50 + r * 20

/-- Survival-mode bot spawn rpm: `55 + Math.random() * 15`. -/
def survivalSpawnRpm (r : ℚ) : ℚ := 55 + r * 15

/-- Boss rpm set at a duel round reset: `BOSS_RPM + duelRound * 15`,
evaluated after the round counter has been incremented. -/
def duelBossResetRpm (round : ℕ) : ℚ := BOSS_RPM + (round : ℚ) * 15

/-! Keyboard input model.  The source keeps a raw key set plus the last
accepted spin key; a spin key press is accepted only when it differs from
the previous accepted spin key, and the whole handler returns early during
a duel round transition. -/

inductive GKey
  | w | a | s | d | j | k
  deriving DecidableEq, Repr

def isMovementKey : GKey → Bool
  | .w => true
  | .a => true
  | .s => true
  | .d => true
  | _ => false

def isSpinKey : GKey → Bool
  | .j => true
  | .k => true
  | _ => false

/-- Set-insert semantics of `keys.add(k)` on the raw key set. -/
def addKey (kk : GKey) (ks : List GKey) : List GKey :=
  if kk ∈ ks then ks else kk :: ks

structure InputState where
  keys : List GKey
  lastSpinKey : Option GKey
  currentRPM : ℚ
  playerAlive : Bool
  duelTransition : Bool
  outsideSafeZone : Bool
  deriving DecidableEq, Repr

/-- The `onKeyDown` handler: blocked entirely during a duel transition,
movement keys go into the raw key set, an alternating spin key adds
`RPM_GAIN_PER_PRESS` (scaled by `OUTSIDE_GAIN_MULT` outside the zone),
clamped at 100, and records itself as the last accepted spin key. -/
def onKeyDown (st : InputState) (kk : GKey) : InputState :=
  if st.duelTransition then st
  else
    let st1 := if isMovementKey kk then { st with keys := addKey kk st.keys } else st
    if isSpinKey kk && st1.playerAlive then
      if st1.lastSpinKey != some kk then
        { st1 with
          currentRPM := playerSpinGainRpm st1.currentRPM st1.outsideSafeZone
          lastSpinKey := some kk }
      else st1
    else st1

/-- Fold a sequence of key-down events through the handler. -/
def pressSeq (st : InputState) (ks : List GKey) : InputState :=
  ks.foldl onKeyDown st

/-- Player state at match start (no keys held, no spin key accepted yet),
parametrised by whether the player stands outside the safe zone. -/
def freshSpinState (outside : Bool) : InputState :=
  { keys := []
    lastSpinKey := none
    currentRPM := STARTING_RPM
    playerAlive := true
    duelTransition := false
    outsideSafeZone := outside }

/-- Effective rpm gain of one accepted press. -/
def pressGain (outside : Bool) : ℚ :=
  if outside then RPM_GAIN_PER_PRESS * OUTSIDE_GAIN_MULT else RPM_GAIN_PER_PRESS

/-! Combat resolver.  A reported collision pair carries two bodies; wall
pairs are skipped, a player body paired with a live bot makes the player
the attacker, and two live bots are ordered by rpm with ties going to the
first body of the pair. -/

structure BodyInfo where
  posX : ℚ
  posY : ℚ
  velX : ℚ
  velY : ℚ
  deriving DecidableEq, Repr

inductive Contender
  | player (rpm : ℚ) (body : BodyInfo)
  | bot (rpm : ℚ) (alive : Bool) (body : BodyInfo)
  | wall
  deriving DecidableEq, Repr

def rpmOf : Contender → ℚ
  | .player r _ => r
  | .bot r _ _ => r
  | .wall => 0

def bodyOf : Contender → BodyInfo
  | .player _ b => b
  | .bot _ _ b => b
  | .wall => ⟨0, 0, 0, 0⟩

/-- Attacker/defender selection of the collision handler.  Returns
`some (attacker, defender)`, or `none` when the pair is skipped. -/
def resolvePair : Contender → Contender → Option (Contender × Contender)
  | .wall, _ => none
  | _, .wall => none
  | .player pr pb, .bot br true bb =>
      some (.player pr pb, .bot br true bb)
  | .bot br true bb, .player pr pb =>
      some (.player pr pb, .bot br true bb)
  | .bot ra true ba, .bot rb true bb =>
      if rb ≤ ra then some (.bot ra true ba, .bot rb true bb)
      else some (.bot rb true bb, .bot ra true ba)
  | _, _ => none

/-- JavaScript `dist || 1`: the divisor used for normalisation, replaced
by 1 exactly when the distance is zero. -/
def normFactor (dist : ℚ) : ℚ := if dist = 0 then 1 else dist

/-- Normalised knockback direction from attacker position to defender
position, dividing by `normFactor dist`. -/
def knockDir (att dfn : BodyInfo) (dist : ℚ) : ℚ × ℚ :=
  ((dfn.posX - att.posX) / normFactor dist, (dfn.posY - att.posY) / normFactor dist)

/-- Base knockback magnitude before modifiers:
`KNOCKBACK_BASE + attackerRPM * KNOCKBACK_RPM_MULT + relSpeed * VELOCITY_KNOCKBACK`. -/
def baseForce (attackerRPM relSpeed : ℚ) : ℚ :=
  KNOCKBACK_BASE + attackerRPM * KNOCKBACK_RPM_MULT + relSpeed * VELOCITY_KNOCKBACK

/-- First modifier: duel boss attacker doubles the force. -/
def forceAfterBoss (f : ℚ) (isDuelBoss : Bool) : ℚ :=
  if isDuelBoss then f * 2 else f

/-- Second modifier: over-spin attacker (`attackerRPM >= SWEET_HIGH` in the
source, boundary included) multiplies by 1.6. -/
def forceAfterOverSpin (f attackerRPM : ℚ) : ℚ :=
  if SWEET_HIGH ≤ attackerRPM then f * (16/10) else f

/-- Third modifier: wobble-zone defender takes 1.5 times the knockback. -/
def forceAfterWobble (f defenderRPM : ℚ) : ℚ :=
  if defenderRPM < SWEET_LOW then f * (15/10) else f

/-- Final knockback magnitude applied to the defender. -/
def knockbackForce (attackerRPM defenderRPM relSpeed : ℚ) (isDuelBoss : Bool) : ℚ :=
  forceAfterWobble
    (forceAfterOverSpin (forceAfterBoss (baseForce attackerRPM relSpeed) isDuelBoss) attackerRPM)
    defenderRPM

/-- Self-recoil magnitude applied to an over-spinning attacker: half of the
force as it stands right after the over-spin multiplier (the wobble
multiplier has not been applied yet at that point in the source). -/
def selfRecoilMag (attackerRPM relSpeed : ℚ) (isDuelBoss : Bool) : ℚ :=
  if SWEET_HIGH ≤ attackerRPM then
    forceAfterOverSpin (forceAfterBoss (baseForce attackerRPM relSpeed) isDuelBoss) attackerRPM
      * (1/2)
  else 0

/-- Impulse applied to the defender: direction times final force. -/
def defenderImpulse (att dfn : BodyInfo) (dist attackerRPM defenderRPM relSpeed : ℚ)
    (isDuelBoss : Bool) : ℚ × ℚ :=
  ((knockDir att dfn dist).1 * knockbackForce attackerRPM defenderRPM relSpeed isDuelBoss,
   (knockDir att dfn dist).2 * knockbackForce attackerRPM defenderRPM relSpeed isDuelBoss)

/-- Impulse applied back to the attacker (zero unless over-spinning). -/
def attackerImpulse (att dfn : BodyInfo) (dist attackerRPM relSpeed : ℚ)
    (isDuelBoss : Bool) : ℚ × ℚ :=
  (-(knockDir att dfn dist).1 * selfRecoilMag attackerRPM relSpeed isDuelBoss,
   -(knockDir att dfn dist).2 * selfRecoilMag attackerRPM relSpeed isDuelBoss)

/-! The reading the claim gives of the over-spin rule, for refutation: the 1.6
multiplier only strictly above the threshold, and the recoil as half of the
final (post-wobble) magnitude. -/

/-- Knockback magnitude as the claim states it (over-spin strictly above
the high threshold). -/
def claimKnockbackForce (attackerRPM defenderRPM relSpeed : ℚ) (isDuelBoss : Bool) : ℚ :=
  forceAfterWobble
    ((if SWEET_HIGH < attackerRPM then
        forceAfterBoss (baseForce attackerRPM relSpeed) isDuelBoss * (16/10)
      else forceAfterBoss (baseForce attackerRPM relSpeed) isDuelBoss))
    defenderRPM

/-- Self-recoil as the claim states it: half of the final knockback
magnitude. -/
def claimSelfRecoilMag (attackerRPM defenderRPM relSpeed : ℚ) (isDuelBoss : Bool) : ℚ :=
  if SWEET_HIGH < attackerRPM then
    claimKnockbackForce attackerRPM defenderRPM relSpeed isDuelBoss * (1/2)
  else 0

/-! Chain-hit bookkeeping on a bot defender. -/

/-- Chain counter update on a hit: increment inside the window, reset to 1
outside it. -/
def chainUpdate (frame lastHit : ℤ) (chain : ℕ) : ℕ :=
  if frame - lastHit < BOT_CHAIN_WINDOW then chain + 1 else 1

/-- Base chain drain: `5 + (chainHits - 1) * 5`. -/
def chainDrainBase (chain : ℕ) : ℚ := 5 + ((chain : ℚ) - 1) * 5

/-- Total chain drain, including the duel-mode momentum bonus of three
times the speed of the player when the player is the attacker. -/
def chainDrain (chain : ℕ) (duelPlayerAttacker : Bool) (attackerSpeed : ℚ) : ℚ :=
  chainDrainBase chain + (if duelPlayerAttacker then attackerSpeed * 3 else 0)

/-- Per-tick chain reset: the counter drops to 0 once the window has fully
elapsed since the last hit. -/
def chainTickReset (frame lastHit : ℤ) (chain : ℕ) : ℕ :=
  if BOT_CHAIN_WINDOW < frame - lastHit then 0 else chain

/-! Safe zone controller. -/

inductive GameMode
  | arena | survival | duel
  deriving DecidableEq, Repr

/-- Per-second shrink amount by mode. -/
def shrinkRate : GameMode → ℚ
  | .duel => DUEL_SAFE_ZONE_SHRINK
  | .survival => SURVIVAL_SAFE_ZONE_SHRINK
  | .arena => SAFE_ZONE_SHRINK_PER_SEC

/-- Per-tick safe zone radius update: once per 60 frames, while above the
minimum, shrink by the mode rate, floored at `SAFE_ZONE_MIN`. -/
def safeZoneShrinkStep (mode : GameMode) (frameCount : ℕ) (radius : ℚ) : ℚ :=
  if frameCount % 60 = 0 ∧ SAFE_ZONE_MIN < radius then
    max SAFE_ZONE_MIN (radius - shrinkRate mode)
  else radius

/-! Duel mode state machine. -/

structure DuelGame where
  duelRound : ℕ
  duelTransition : Bool
  duelTransitionTimer : ℤ
  bossAlive : Bool
  bossRpm : ℚ
  bossPosX : ℚ
  bossPosY : ℚ
  bossVelX : ℚ
  bossVelY : ℚ
  playerRpm : ℚ
  playerPosX : ℚ
  playerPosY : ℚ
  playerVelX : ℚ
  playerVelY : ℚ
  safeZone : ℚ
  safeZoneCX : ℚ
  safeZoneCY : ℚ
  duelBossMaxRPM : ℚ
  laserCount : ℕ
  bombCount : ℕ
  kills : ℕ
  gameOver : Bool
  isWinner : Bool
  deriving DecidableEq, Repr

/-- Boss elimination in duel mode.  The boss first dies (kill counted);
before round 3 the round advances, a frozen transition starts, boss and
player are reset in position and rpm, the safe zone snaps back to its
initial radius at the arena centre, projectiles are cleared and the boss
maximum rpm is raised; in round 3 the player simply wins. -/
def bossEliminated (g : DuelGame) : DuelGame :=
  let g2 := { g with bossAlive := false, kills := g.kills + 1 }
  if g2.duelRound < 3 then
    { g2 with
      duelRound := g2.duelRound + 1
      duelTransition := true
      duelTransitionTimer := DUEL_ROUND_TRANSITION_FRAMES
      bossAlive := true
      bossRpm := duelBossResetRpm (g2.duelRound + 1)
      duelBossMaxRPM := duelBossResetRpm (g2.duelRound + 1)
      bossPosX := CX + 200
      bossPosY := CY
      bossVelX := 0
      bossVelY := 0
      playerPosX := CX - 200
      playerPosY := CY
      playerVelX := 0
      playerVelY := 0
      playerRpm := STARTING_RPM
      safeZone := SAFE_ZONE_INITIAL
      safeZoneCX := CX
      safeZoneCY := CY
      laserCount := 0
      bombCount := 0 }
  else
    { g2 with gameOver := true, isWinner := true }

/-- One fixed-timestep tick while the duel transition lock is held: only
the countdown runs, and the lock clears when the timer reaches zero. -/
def duelFreezeStep (g : DuelGame) : DuelGame :=
  { g with
    duelTransitionTimer := g.duelTransitionTimer - 1
    duelTransition := decide (0 < g.duelTransitionTimer - 1) }

/-- A concrete duel state used to instantiate general theorems. -/
def sampleDuel (n : ℕ) : DuelGame where
  duelRound := n
  duelTransition := false
  duelTransitionTimer := 0
  bossAlive := true
  bossRpm := BOSS_RPM
  bossPosX := CX + 200
  bossPosY := CY
  bossVelX := 0
  bossVelY := 0
  playerRpm := 33
  playerPosX := CX - 100
  playerPosY := CY
  playerVelX := 0
  playerVelY := 0
  safeZone := 200
  safeZoneCX := CX
  safeZoneCY := CY
  duelBossMaxRPM := BOSS_RPM
  laserCount := 2
  bombCount := 1
  kills := 0
  gameOver := false
  isWinner := false

/-! Helper lemmas. -/

/-- The collision drain dealt to the player is nonnegative. -/
lemma playerCollisionDrain_nonneg (a d : ℚ) (b : Bool) :
    0 ≤ playerCollisionDrain a d b := by
  unfold playerCollisionDrain DUEL_COLLISION_MULT
  have h1 : (0 : ℚ) ≤ max 0 (a - d) := le_max_left 0 (a - d)
  have h2 : (0 : ℚ) ≤ 10 + max 0 (a - d) * (8/100) := by nlinarith
  split_ifs <;> nlinarith

/-- The normalised direction is a unit vector whenever the two positions
are distinct and `dist` is their genuine Euclidean distance. -/
lemma knockDir_unit (att dfn : BodyInfo) (dist : ℚ)
    (hd : dist * dist = (dfn.posX - att.posX) * (dfn.posX - att.posX)
        + (dfn.posY - att.posY) * (dfn.posY - att.posY))
    (hpos : 0 < dist) :
    (knockDir att dfn dist).1 * (knockDir att dfn dist).1
      + (knockDir att dfn dist).2 * (knockDir att dfn dist).2 = 1 := by
  have hne : dist ≠ 0 := ne_of_gt hpos
  simp only [knockDir, normFactor, if_neg hne]
  field_simp
  linarith [hd]

/-- C2: every rpm mutation site of the simulation (player spin gain,
player decay, player collision hit, projectile damage, bot decay, bot
regeneration, bot floor, bot spin gains, bot chain drain, every spawn
value and every reset value) maps an rpm in the range [0, 100] back into
[0, 100]. -/
theorem c2_rpm_clamped (rpm a g dr f r : ℚ) (o b : Bool) (n : ℕ)
    (h0 : 0 ≤ rpm) (h1 : rpm ≤ 100) (hg : 0 ≤ g) (hdr : 0 ≤ dr) (hf : 0 ≤ f)
    (hr0 : 0 ≤ r) (hr1 : r ≤ 1) (hn : n ≤ 3) :
    (0 ≤ playerSpinGainRpm rpm o ∧ playerSpinGainRpm rpm o ≤ 100)
    ∧ (0 ≤ playerDecayRpm rpm o ∧ playerDecayRpm rpm o ≤ 100)
    ∧ (0 ≤ playerHitRpm rpm a b ∧ playerHitRpm rpm a b ≤ 100)
    ∧ (0 ≤ laserHitRpm rpm ∧ laserHitRpm rpm ≤ 100)
    ∧ (0 ≤ bombHitRpm rpm f ∧ bombHitRpm rpm f ≤ 100)
    ∧ (0 ≤ botDecayRpm rpm o ∧ botDecayRpm rpm o ≤ 100)
    ∧ (0 ≤ botRegenRpm rpm ∧ botRegenRpm rpm ≤ 100)
    ∧ (0 ≤ botFloorRpm rpm ∧ botFloorRpm rpm ≤ 100)
    ∧ (0 ≤ botSpinRpm rpm g o ∧ botSpinRpm rpm g o ≤ 100)
    ∧ (0 ≤ botChainDrainRpm rpm dr ∧ botChainDrainRpm rpm dr ≤ 100)
    ∧ (0 ≤ arenaSpawnRpm r ∧ arenaSpawnRpm r ≤ 100)
    ∧ (0 ≤ survivalSpawnRpm r ∧ survivalSpawnRpm r ≤ 100)
    ∧ (0 ≤ duelBossResetRpm n ∧ duelBossResetRpm n ≤ 100)
    ∧ (0 ≤ STARTING_RPM ∧ STARTING_RPM ≤ 100)
    ∧ (0 ≤ BOSS_RPM ∧ BOSS_RPM ≤ 100) := by
  have hq : (n : ℚ) ≤ 3 := by exact_mod_cast hn
  have hdrain := playerCollisionDrain_nonneg a rpm b
  refine ⟨⟨?_, ?_⟩, ⟨?_, ?_⟩, ⟨?_, ?_⟩, ⟨?_, ?_⟩, ⟨?_, ?_⟩, ⟨?_, ?_⟩, ⟨?_, ?_⟩,
    ⟨?_, ?_⟩, ⟨?_, ?_⟩, ⟨?_, ?_⟩, ⟨?_, ?_⟩, ⟨?_, ?_⟩, ⟨?_, ?_⟩, ⟨?_, ?_⟩, ⟨?_, ?_⟩⟩
  · unfold playerSpinGainRpm RPM_GAIN_PER_PRESS OUTSIDE_GAIN_MULT
    apply le_min (by norm_num)
    split_ifs <;> linarith
  · exact min_le_left _ _
  · exact le_max_left _ _
  · unfold playerDecayRpm RPM_DECAY_PER_FRAME OUTSIDE_DECAY_MULT
    apply max_le (by norm_num)
    split_ifs <;> linarith
  · exact le_max_left _ _
  · unfold playerHitRpm
    apply max_le (by norm_num)
    linarith
  · exact le_max_left _ _
  · unfold laserHitRpm DUEL_LASER_DMG
    apply max_le (by norm_num)
    linarith
  · exact le_max_left _ _
  · unfold bombHitRpm DUEL_BOMB_DMG
    apply max_le (by norm_num)
    nlinarith
  · exact le_max_left _ _
  · unfold botDecayRpm RPM_DECAY_PER_FRAME OUTSIDE_DECAY_MULT
    apply max_le (by norm_num)
    split_ifs <;> linarith
  · unfold botRegenRpm BOT_PASSIVE_REGEN
    apply le_min (by norm_num)
    linarith
  · exact le_trans (min_le_left _ _) (by norm_num)
  · unfold botFloorRpm BOT_RPM_FLOOR_INSIDE
    split_ifs <;> linarith
  · unfold botFloorRpm BOT_RPM_FLOOR_INSIDE
    split_ifs <;> linarith
  · unfold botSpinRpm OUTSIDE_GAIN_MULT
    apply le_min (by norm_num)
    split_ifs <;> nlinarith
  · exact le_trans (min_le_left _ _) (by norm_num)
  · exact le_max_left _ _
  · unfold botChainDrainRpm
    apply max_le (by norm_num)
    linarith
  · unfold arenaSpawnRpm
    linarith
  · unfold arenaSpawnRpm
    linarith
  · unfold survivalSpawnRpm
    linarith
  · unfold survivalSpawnRpm
    linarith
  · unfold duelBossResetRpm BOSS_RPM
    positivity
  · unfold duelBossResetRpm BOSS_RPM
    linarith
  · unfold STARTING_RPM
    norm_num
  · unfold STARTING_RPM
    norm_num
  · unfold BOSS_RPM
    norm_num
  · unfold BOSS_RPM
    norm_num

/-- C2 witness: the guarantees instantiated at a concrete mid-range state. -/
theorem c2_witness :
    (0 ≤ playerSpinGainRpm 50 false ∧ playerSpinGainRpm 50 false ≤ 100)
    ∧ (0 ≤ playerDecayRpm 50 false ∧ playerDecayRpm 50 false ≤ 100)
    ∧ (0 ≤ playerHitRpm 50 80 false ∧ playerHitRpm 50 80 false ≤ 100)
    ∧ (0 ≤ laserHitRpm 50 ∧ laserHitRpm 50 ≤ 100)
    ∧ (0 ≤ bombHitRpm 50 (1/2) ∧ bombHitRpm 50 (1/2) ≤ 100)
    ∧ (0 ≤ botDecayRpm 50 false ∧ botDecayRpm 50 false ≤ 100)
    ∧ (0 ≤ botRegenRpm 50 ∧ botRegenRpm 50 ≤ 100)
    ∧ (0 ≤ botFloorRpm 50 ∧ botFloorRpm 50 ≤ 100)
    ∧ (0 ≤ botSpinRpm 50 6 false ∧ botSpinRpm 50 6 false ≤ 100)
    ∧ (0 ≤ botChainDrainRpm 50 15 ∧ botChainDrainRpm 50 15 ≤ 100)
    ∧ (0 ≤ arenaSpawnRpm (1/2) ∧ arenaSpawnRpm (1/2) ≤ 100)
    ∧ (0 ≤ survivalSpawnRpm (1/2) ∧ survivalSpawnRpm (1/2) ≤ 100)
    ∧ (0 ≤ duelBossResetRpm 2 ∧ duelBossResetRpm 2 ≤ 100)
    ∧ (0 ≤ STARTING_RPM ∧ STARTING_RPM ≤ 100)
    ∧ (0 ≤ BOSS_RPM ∧ BOSS_RPM ≤ 100) :=
  c2_rpm_clamped 50 80 6 15 (1/2) (1/2) false false 2
    (by norm_num) (by norm_num) (by norm_num) (by norm_num) (by norm_num)
    (by norm_num) (by norm_num) (by norm_num)

/-- C10: every bot rpm mutation keeps the rpm within [0, 90]: all three
spin-gain paths and the passive regeneration clamp at 90, the floor and
the drains stay inside the range, the spawn values are at most 70 and the
duel round-reset values at most 85, so the effective bot range is strictly
narrower than the entity range [0, 100]. -/
theorem c10_bot_rpm_cap (rpm dr r : ℚ) (o : Bool)
    (h0 : 0 ≤ rpm) (h1 : rpm ≤ 90) (hdr : 0 ≤ dr) (hr0 : 0 ≤ r) (hr1 : r ≤ 1) :
    (0 ≤ botDecayRpm rpm o ∧ botDecayRpm rpm o ≤ 90)
    ∧ botRegenRpm rpm ≤ 90
    ∧ (0 ≤ botFloorRpm rpm ∧ botFloorRpm rpm ≤ 90)
    ∧ (∀ g2 : ℚ, 0 ≤ g2 → 0 ≤ botSpinRpm rpm g2 o ∧ botSpinRpm rpm g2 o ≤ 90)
    ∧ (0 ≤ botChainDrainRpm rpm dr ∧ botChainDrainRpm rpm dr ≤ 90)
    ∧ (0 ≤ arenaSpawnRpm r ∧ arenaSpawnRpm r ≤ 70)
    ∧ (0 ≤ survivalSpawnRpm r ∧ survivalSpawnRpm r ≤ 70)
    ∧ BOSS_RPM ≤ 70
    ∧ (∀ n : ℕ, n ≤ 3 → duelBossResetRpm n ≤ 85)
    ∧ BOT_SPIN_GAIN ≥ 0 ∧ BOT_EMERGENCY_SPIN_GAIN ≥ 0 ∧ DUEL_BOSS_SPIN_GAIN ≥ 0 := by
  refine ⟨⟨le_max_left _ _, ?_⟩, le_trans (min_le_left _ _) (by norm_num), ⟨?_, ?_⟩,
    ?_, ⟨le_max_left _ _, ?_⟩, ⟨?_, ?_⟩, ⟨?_, ?_⟩, ?_, ?_, ?_, ?_, ?_⟩
  · unfold botDecayRpm RPM_DECAY_PER_FRAME OUTSIDE_DECAY_MULT
    apply max_le (by norm_num)
    split_ifs <;> linarith
  · unfold botFloorRpm BOT_RPM_FLOOR_INSIDE
    split_ifs <;> linarith
  · unfold botFloorRpm BOT_RPM_FLOOR_INSIDE
    split_ifs <;> linarith
  · intro g2 hg2
    constructor
    · unfold botSpinRpm OUTSIDE_GAIN_MULT
      apply le_min (by norm_num)
      split_ifs <;> nlinarith
    · exact min_le_left _ _
  · unfold botChainDrainRpm
    apply max_le (by norm_num)
    linarith
  · unfold arenaSpawnRpm
    linarith
  · unfold arenaSpawnRpm
    linarith
  · unfold survivalSpawnRpm
    linarith
  · unfold survivalSpawnRpm
    linarith
  · unfold BOSS_RPM
    norm_num
  · intro n hn
    have hq : (n : ℚ) ≤ 3 := by exact_mod_cast hn
    unfold duelBossResetRpm BOSS_RPM
    linarith
  · unfold BOT_SPIN_GAIN
    norm_num
  · unfold BOT_EMERGENCY_SPIN_GAIN
    norm_num
  · unfold DUEL_BOSS_SPIN_GAIN
    norm_num

/-- C10 witness: the bot bounds instantiated at a concrete bot state. -/
theorem c10_witness :
    (0 ≤ botDecayRpm 60 true ∧ botDecayRpm 60 true ≤ 90)
    ∧ botRegenRpm 60 ≤ 90
    ∧ (0 ≤ botFloorRpm 60 ∧ botFloorRpm 60 ≤ 90)
    ∧ (0 ≤ botSpinRpm 60 10 true ∧ botSpinRpm 60 10 true ≤ 90)
    ∧ (0 ≤ arenaSpawnRpm (3/4) ∧ arenaSpawnRpm (3/4) ≤ 70)
    ∧ duelBossResetRpm 3 ≤ 85 := by
  have h := c10_bot_rpm_cap 60 5 (3/4) true
    (by norm_num) (by norm_num) (by norm_num) (by norm_num) (by norm_num)
  exact ⟨h.1, h.2.1, h.2.2.1, h.2.2.2.1 10 (by norm_num), h.2.2.2.2.2.1,
    h.2.2.2.2.2.2.2.2.1 3 (by norm_num)⟩

/-- C3: the safe-zone radius never increases across a shrink step, never
drops below the minimum, and the only radius write outside the shrink step
is the duel round reset, which restores the initial radius. -/
theorem c3_safe_zone_monotone (mode : GameMode) (f : ℕ) (radius : ℚ) (g : DuelGame)
    (h0 : SAFE_ZONE_MIN ≤ radius) (hr : g.duelRound < 3) :
    safeZoneShrinkStep mode f radius ≤ radius
    ∧ SAFE_ZONE_MIN ≤ safeZoneShrinkStep mode f radius
    ∧ (bossEliminated g).safeZone = SAFE_ZONE_INITIAL := by
  have hrate : 0 ≤ shrinkRate mode := by
    cases mode <;>
      norm_num [shrinkRate, DUEL_SAFE_ZONE_SHRINK, SURVIVAL_SAFE_ZONE_SHRINK,
        SAFE_ZONE_SHRINK_PER_SEC]
  refine ⟨?_, ?_, ?_⟩
  · unfold safeZoneShrinkStep
    split_ifs with h
    · exact max_le h0 (by linarith)
    · exact le_refl radius
  · unfold safeZoneShrinkStep
    split_ifs with h
    · exact le_max_left _ _
    · exact h0
  · simp only [bossEliminated]
    rw [if_pos hr]

/-- C3 witness: a concrete shrink step in arena mode and a concrete duel
round reset. -/
theorem c3_witness :
    safeZoneShrinkStep GameMode.arena 60 360 ≤ 360
    ∧ SAFE_ZONE_MIN ≤ safeZoneShrinkStep GameMode.arena 60 360
    ∧ (bossEliminated (sampleDuel 1)).safeZone = SAFE_ZONE_INITIAL :=
  c3_safe_zone_monotone GameMode.arena 60 360 (sampleDuel 1)
    (by norm_num [SAFE_ZONE_MIN]) (by decide)

/-- C4: a spin key equal to the last accepted spin key leaves the whole
input state unchanged (no rpm gain), while from a fresh state at rpm 50
the alternating sequence J, K, J gains three presses and J, J gains only
one, with the per-press gain reduced by the outside factor when the player
is outside the safe zone. -/
theorem c4_alternation (st : InputState) (kk : GKey) (o : Bool)
    (hspin : isSpinKey kk = true) (hlast : st.lastSpinKey = some kk) :
    onKeyDown st kk = st
    ∧ (pressSeq (freshSpinState o) [GKey.j, GKey.k, GKey.j]).currentRPM
        = STARTING_RPM + 3 * pressGain o
    ∧ (pressSeq (freshSpinState o) [GKey.j, GKey.j]).currentRPM
        = STARTING_RPM + pressGain o := by
  refine ⟨?_, ?_, ?_⟩
  · cases kk <;> simp [isSpinKey] at hspin <;>
      simp [onKeyDown, isMovementKey, isSpinKey, hlast]
  · cases o <;>
      · simp [pressSeq, onKeyDown, freshSpinState, isMovementKey, isSpinKey, addKey]
        norm_num [playerSpinGainRpm, pressGain, STARTING_RPM, RPM_GAIN_PER_PRESS,
          OUTSIDE_GAIN_MULT, min_def]
  · cases o <;>
      · simp [pressSeq, onKeyDown, freshSpinState, isMovementKey, isSpinKey, addKey]
        norm_num [playerSpinGainRpm, pressGain, STARTING_RPM, RPM_GAIN_PER_PRESS,
          OUTSIDE_GAIN_MULT, min_def]

/-- C4 witness: the alternation rule applied at a concrete locked spin key
together with the two concrete press sequences. -/
theorem c4_witness :
    onKeyDown
        { keys := [], lastSpinKey := some GKey.j, currentRPM := 50,
          playerAlive := true, duelTransition := false, outsideSafeZone := false }
        GKey.j
      = { keys := [], lastSpinKey := some GKey.j, currentRPM := 50,
          playerAlive := true, duelTransition := false, outsideSafeZone := false }
    ∧ (pressSeq (freshSpinState false) [GKey.j, GKey.k, GKey.j]).currentRPM
        = STARTING_RPM + 3 * pressGain false :=
  ⟨(c4_alternation
      { keys := [], lastSpinKey := some GKey.j, currentRPM := 50,
        playerAlive := true, duelTransition := false, outsideSafeZone := false }
      GKey.j false rfl rfl).1,
   (c4_alternation
      { keys := [], lastSpinKey := some GKey.j, currentRPM := 50,
        playerAlive := true, duelTransition := false, outsideSafeZone := false }
      GKey.j false rfl rfl).2.1⟩

/-- C5 counterexample: in duel mode, when the player hits the boss while
moving at speed 2, the very first hit of a chain drains 11 rpm, not the
`chainBase + (chainHits - 1) * chainStep = 5` the claim asserts: the
source adds a momentum bonus of three times the player speed. -/
theorem c5_counterexample :
    chainUpdate 0 (-999) 0 = 1
    ∧ chainDrain (chainUpdate 0 (-999) 0) true 2 = 11
    ∧ chainDrainBase (chainUpdate 0 (-999) 0) = 5
    ∧ chainDrain (chainUpdate 0 (-999) 0) true 2
        ≠ chainDrainBase (chainUpdate 0 (-999) 0) := by
  have h : chainUpdate 0 (-999) 0 = 1 := by decide
  refine ⟨h, ?_, ?_, ?_⟩ <;> rw [h] <;>
    norm_num [chainDrain, chainDrainBase]

/-- C5 (corrected): a hit within the 120-tick window of the previous hit
increments the chain counter and otherwise resets it to 1; the drain is
the base `5 + (chainHits - 1) * 5` plus — only in duel mode when the
attacker is the player — a momentum bonus of three times the player
speed; the base drain strictly increases along consecutive hits inside
the window; and a tick more than a window after the last hit resets the
counter to 0. -/
theorem c5_chain_rule (frame lastHit : ℤ) (chain : ℕ) (speed : ℚ) (dpa : Bool)
    (hin : frame - lastHit < BOT_CHAIN_WINDOW) :
    chainUpdate frame lastHit chain = chain + 1
    ∧ (∀ f2 l2 : ℤ, BOT_CHAIN_WINDOW ≤ f2 - l2 → chainUpdate f2 l2 chain = 1)
    ∧ chainDrain chain dpa speed
        = 5 + ((chain : ℚ) - 1) * 5 + (if dpa then speed * 3 else 0)
    ∧ chainDrain chain false speed = chainDrainBase chain
    ∧ chainDrainBase chain < chainDrainBase (chain + 1)
    ∧ chainDrainBase (chainUpdate frame lastHit chain) = chainDrainBase chain + 5
    ∧ (∀ f2 l2 : ℤ, BOT_CHAIN_WINDOW < f2 - l2 → chainTickReset f2 l2 chain = 0) := by
  have hup : chainUpdate frame lastHit chain = chain + 1 := by
    unfold chainUpdate
    rw [if_pos hin]
  refine ⟨hup, ?_, ?_, ?_, ?_, ?_, ?_⟩
  · intro f2 l2 h2
    unfold chainUpdate
    rw [if_neg (not_lt.mpr h2)]
  · cases dpa <;> simp [chainDrain, chainDrainBase]
  · simp [chainDrain]
  · simp only [chainDrainBase]
    push_cast
    linarith
  · rw [hup]
    simp only [chainDrainBase]
    push_cast
    ring
  · intro f2 l2 h2
    unfold chainTickReset
    rw [if_pos h2]

/-- C5 witness: the chain rule applied at a concrete in-window hit. -/
theorem c5_witness :
    chainUpdate 100 50 2 = 3
    ∧ chainDrainBase (chainUpdate 100 50 2) = chainDrainBase 2 + 5
    ∧ chainTickReset 300 50 2 = 0 := by
  have h := c5_chain_rule 100 50 2 0 false (by decide)
  exact ⟨h.1, h.2.2.2.2.2.1, h.2.2.2.2.2.2 300 50 (by decide)⟩

/-- C6 counterexample: at attacker rpm exactly 60 (the high threshold,
which the claim places in the Sweet Spot) the source still applies the
1.6 over-spin multiplier, and with a wobble defender the source recoil is
half the pre-wobble force, not half the final force. -/
theorem c6_counterexample :
    knockbackForce 60 50 0 false ≠ claimKnockbackForce 60 50 0 false
    ∧ selfRecoilMag 70 0 false ≠ claimSelfRecoilMag 70 30 0 false := by
  constructor <;>
    norm_num [knockbackForce, claimKnockbackForce, selfRecoilMag, claimSelfRecoilMag,
      forceAfterWobble, forceAfterOverSpin, forceAfterBoss, baseForce, SWEET_HIGH,
      SWEET_LOW, KNOCKBACK_BASE, KNOCKBACK_RPM_MULT, VELOCITY_KNOCKBACK]

/-- C6 (corrected): the knockback force is the base force times the three
modifiers in source order — duel boss ×2, over-spin ×1.6 (applied whenever
attacker rpm is greater than or equal to the high threshold, boundary
included), wobble defender ×1.5 — and the over-spinning attacker receives
a self-recoil of half the force as it stands after the over-spin
multiplier but before the wobble multiplier, directed opposite the
knockback direction. -/
theorem c6_overspin_modifiers (a d r : ℚ) (b : Bool) :
    knockbackForce a d r b
      = baseForce a r * (if b then 2 else 1) * (if SWEET_HIGH ≤ a then 16/10 else 1)
          * (if d < SWEET_LOW then 15/10 else 1)
    ∧ selfRecoilMag a r b
      = (if SWEET_HIGH ≤ a then 1/2 else 0)
          * (baseForce a r * (if b then 2 else 1) * (16/10))
    ∧ (∀ att dfn : BodyInfo, ∀ dist : ℚ,
        attackerImpulse att dfn dist a r b
          = (-(knockDir att dfn dist).1 * selfRecoilMag a r b,
             -(knockDir att dfn dist).2 * selfRecoilMag a r b)) := by
  refine ⟨?_, ?_, ?_⟩
  · unfold knockbackForce forceAfterWobble forceAfterOverSpin forceAfterBoss
    split_ifs <;> ring
  · unfold selfRecoilMag forceAfterOverSpin forceAfterBoss
    split_ifs <;> ring
  · intro att dfn dist
    rfl

/-- C7: eliminating the duel boss in round 1 or 2 increments the round,
starts the 180-frame frozen transition, revives the boss at a raised rpm
equal to the new maximum, resets both positions and the rpm of the player,
restores the safe zone to its initial radius at the arena centre and
clears all projectiles; eliminating it in round 3 wins the game with no
reset; and a tick under the transition lock only counts the timer down,
clearing the lock when it reaches zero. -/
theorem c7_duel_rounds (g : DuelGame) :
    (g.duelRound = 1 →
      (bossEliminated g).duelRound = 2
      ∧ (bossEliminated g).duelTransition = true
      ∧ (bossEliminated g).duelTransitionTimer = DUEL_ROUND_TRANSITION_FRAMES
      ∧ (bossEliminated g).bossAlive = true
      ∧ (bossEliminated g).bossRpm = 70
      ∧ (bossEliminated g).duelBossMaxRPM = 70
      ∧ BOSS_RPM < (bossEliminated g).duelBossMaxRPM
      ∧ (bossEliminated g).bossPosX = CX + 200
      ∧ (bossEliminated g).bossPosY = CY
      ∧ (bossEliminated g).playerPosX = CX - 200
      ∧ (bossEliminated g).playerPosY = CY
      ∧ (bossEliminated g).playerRpm = STARTING_RPM
      ∧ (bossEliminated g).safeZone = SAFE_ZONE_INITIAL
      ∧ (bossEliminated g).safeZoneCX = CX
      ∧ (bossEliminated g).safeZoneCY = CY
      ∧ (bossEliminated g).laserCount = 0
      ∧ (bossEliminated g).bombCount = 0
      ∧ (bossEliminated g).gameOver = g.gameOver)
    ∧ (g.duelRound = 2 →
      (bossEliminated g).duelRound = 3
      ∧ (bossEliminated g).duelTransition = true
      ∧ (bossEliminated g).bossAlive = true
      ∧ (bossEliminated g).bossRpm = 85
      ∧ (bossEliminated g).duelBossMaxRPM = 85
      ∧ (bossEliminated g).playerRpm = STARTING_RPM
      ∧ (bossEliminated g).safeZone = SAFE_ZONE_INITIAL
      ∧ (bossEliminated g).laserCount = 0
      ∧ (bossEliminated g).bombCount = 0
      ∧ (bossEliminated g).gameOver = g.gameOver)
    ∧ (g.duelRound = 3 →
      (bossEliminated g).gameOver = true
      ∧ (bossEliminated g).isWinner = true
      ∧ (bossEliminated g).bossAlive = false
      ∧ (bossEliminated g).duelRound = 3
      ∧ (bossEliminated g).playerRpm = g.playerRpm
      ∧ (bossEliminated g).safeZone = g.safeZone
      ∧ (bossEliminated g).safeZoneCX = g.safeZoneCX
      ∧ (bossEliminated g).laserCount = g.laserCount
      ∧ (bossEliminated g).bombCount = g.bombCount
      ∧ (bossEliminated g).playerPosX = g.playerPosX
      ∧ (bossEliminated g).duelBossMaxRPM = g.duelBossMaxRPM)
    ∧ ((duelFreezeStep g).duelTransitionTimer = g.duelTransitionTimer - 1
      ∧ (duelFreezeStep g).duelRound = g.duelRound
      ∧ (duelFreezeStep g).playerRpm = g.playerRpm
      ∧ (duelFreezeStep g).bossRpm = g.bossRpm
      ∧ (duelFreezeStep g).safeZone = g.safeZone
      ∧ (duelFreezeStep g).playerPosX = g.playerPosX
      ∧ (duelFreezeStep g).bossPosX = g.bossPosX
      ∧ (duelFreezeStep g).laserCount = g.laserCount
      ∧ (duelFreezeStep g).bombCount = g.bombCount
      ∧ ((duelFreezeStep g).duelTransition = true ↔ 0 < g.duelTransitionTimer - 1)) := by
  refine ⟨?_, ?_, ?_, ?_⟩
  · intro h
    norm_num [bossEliminated, h, duelBossResetRpm, BOSS_RPM]
  · intro h
    norm_num [bossEliminated, h, duelBossResetRpm, BOSS_RPM]
  · intro h
    norm_num [bossEliminated, h]
  · simp [duelFreezeStep]

/-- C7 witness: the round transitions evaluated on concrete duel states in
rounds 1, 2 and 3. -/
theorem c7_witness :
    (bossEliminated (sampleDuel 1)).duelRound = 2
    ∧ (bossEliminated (sampleDuel 1)).duelBossMaxRPM = 70
    ∧ (bossEliminated (sampleDuel 2)).duelRound = 3
    ∧ (bossEliminated (sampleDuel 2)).bossRpm = 85
    ∧ (bossEliminated (sampleDuel 3)).isWinner = true
    ∧ (bossEliminated (sampleDuel 3)).safeZone = (sampleDuel 3).safeZone :=
  ⟨((c7_duel_rounds (sampleDuel 1)).1 rfl).1,
   ((c7_duel_rounds (sampleDuel 1)).1 rfl).2.2.2.2.2.1,
   ((c7_duel_rounds (sampleDuel 2)).2.1 rfl).1,
   ((c7_duel_rounds (sampleDuel 2)).2.1 rfl).2.2.2.1,
   ((c7_duel_rounds (sampleDuel 3)).2.2.1 rfl).2.1,
   ((c7_duel_rounds (sampleDuel 3)).2.2.1 rfl).2.2.2.2.2.1⟩

/-- C8 counterexample: a W key-down arriving during a duel round
transition leaves the raw key-state set empty — the handler returns
before `keys.add`, so the event is not accepted into the set as the claim
asserts. -/
theorem c8_counterexample :
    onKeyDown
        { keys := [], lastSpinKey := none, currentRPM := 50, playerAlive := true,
          duelTransition := true, outsideSafeZone := false } GKey.w
      = { keys := [], lastSpinKey := none, currentRPM := 50, playerAlive := true,
          duelTransition := true, outsideSafeZone := false }
    ∧ GKey.w ∉
        (onKeyDown
          { keys := [], lastSpinKey := none, currentRPM := 50, playerAlive := true,
            duelTransition := true, outsideSafeZone := false } GKey.w).keys := by
  constructor
  · simp [onKeyDown]
  · simp [onKeyDown]

/-- C8 (corrected): every key-down event that arrives during a duel round
transition is dropped entirely — it is not added to the raw key-state set
and produces no rpm or movement effect; the whole input state is
unchanged. -/
theorem c8_lockout (st : InputState) (kk : GKey) (h : st.duelTransition = true) :
    onKeyDown st kk = st := by
  simp [onKeyDown, h]

/-- C8 witness: the lockout applied to a concrete held-key state. -/
theorem c8_witness :
    onKeyDown
        { keys := [GKey.a], lastSpinKey := some GKey.j, currentRPM := 70,
          playerAlive := true, duelTransition := true, outsideSafeZone := true } GKey.s
      = { keys := [GKey.a], lastSpinKey := some GKey.j, currentRPM := 70,
          playerAlive := true, duelTransition := true, outsideSafeZone := true } :=
  c8_lockout
    { keys := [GKey.a], lastSpinKey := some GKey.j, currentRPM := 70,
      playerAlive := true, duelTransition := true, outsideSafeZone := true }
    GKey.s rfl

/-- C9 counterexample: with coincident attacker and defender positions the
distance is 0, the fallback divisor 1 is used, and the computed knockback
direction is the zero vector — not a unit vector as the claim states. -/
theorem c9_counterexample :
    knockDir ⟨5, 5, 0, 0⟩ ⟨5, 5, 0, 0⟩ 0 = (0, 0)
    ∧ (knockDir ⟨5, 5, 0, 0⟩ ⟨5, 5, 0, 0⟩ 0).1 * (knockDir ⟨5, 5, 0, 0⟩ ⟨5, 5, 0, 0⟩ 0).1
        + (knockDir ⟨5, 5, 0, 0⟩ ⟨5, 5, 0, 0⟩ 0).2 * (knockDir ⟨5, 5, 0, 0⟩ ⟨5, 5, 0, 0⟩ 0).2
        ≠ 1 := by
  constructor
  · norm_num [knockDir, normFactor]
  · norm_num [knockDir, normFactor]

/-- C9 (corrected): no normalisation ever divides by zero — the divisor
`dist || 1` is nonzero for every nonnegative distance — but the fallback
for coincident positions is the zero direction vector (hence a zero
defender impulse), not a default unit vector; for distinct positions at
their true Euclidean distance the direction is a genuine unit vector. -/
theorem c9_zero_vector_guard (att dfn : BodyInfo) (dist dd : ℚ)
    (hnn : 0 ≤ dd)
    (hd : dist * dist = (dfn.posX - att.posX) * (dfn.posX - att.posX)
        + (dfn.posY - att.posY) * (dfn.posY - att.posY))
    (hpos : 0 < dist) :
    normFactor dd ≠ 0
    ∧ (∀ b : BodyInfo, knockDir b b 0 = (0, 0))
    ∧ (∀ b : BodyInfo, ∀ aR dR rS : ℚ, ∀ boss : Bool,
        defenderImpulse b b 0 aR dR rS boss = (0, 0))
    ∧ (knockDir att dfn dist).1 * (knockDir att dfn dist).1
        + (knockDir att dfn dist).2 * (knockDir att dfn dist).2 = 1 := by
  refine ⟨?_, ?_, ?_, knockDir_unit att dfn dist hd hpos⟩
  · unfold normFactor
    split_ifs with h
    · norm_num
    · rcases lt_or_eq_of_le hnn with h2 | h2
      · exact ne_of_gt h2
      · exact absurd h2.symm h
  · intro b
    simp [knockDir, normFactor]
  · intro b aR dR rS boss
    simp [defenderImpulse, knockDir, normFactor]

/-- C9 witness: the guard evaluated at distance 5 and at a concrete
distinct pair of positions three-four-five apart. -/
theorem c9_witness :
    normFactor 5 ≠ 0
    ∧ knockDir ⟨7, 7, 0, 0⟩ ⟨7, 7, 0, 0⟩ 0 = (0, 0)
    ∧ (knockDir ⟨0, 0, 0, 0⟩ ⟨3, 4, 0, 0⟩ 5).1 * (knockDir ⟨0, 0, 0, 0⟩ ⟨3, 4, 0, 0⟩ 5).1
        + (knockDir ⟨0, 0, 0, 0⟩ ⟨3, 4, 0, 0⟩ 5).2 * (knockDir ⟨0, 0, 0, 0⟩ ⟨3, 4, 0, 0⟩ 5).2
        = 1 := by
  have h := c9_zero_vector_guard ⟨0, 0, 0, 0⟩ ⟨3, 4, 0, 0⟩ 5 5
    (by norm_num) (by norm_num) (by norm_num)
  exact ⟨h.1, h.2.1 ⟨7, 7, 0, 0⟩, h.2.2.2⟩

/-- C1 counterexample: a collision pair whose first body is the player at
rpm 10 and whose second body is a live bot at rpm 90 is resolved with the
player as attacker — the lower-rpm entity — and the knockback is applied
to the defending bot, the higher-rpm entity, contradicting the claim that
the attacker is always the entity with the higher rpm. -/
theorem c1_counterexample :
    resolvePair (Contender.player 10 ⟨0, 0, 0, 0⟩) (Contender.bot 90 true ⟨50, 0, 0, 0⟩)
      = some (Contender.player 10 ⟨0, 0, 0, 0⟩, Contender.bot 90 true ⟨50, 0, 0, 0⟩)
    ∧ rpmOf (Contender.player 10 ⟨0, 0, 0, 0⟩) < rpmOf (Contender.bot 90 true ⟨50, 0, 0, 0⟩) := by
  constructor
  · rfl
  · norm_num [rpmOf]

/-- C1 (corrected): in a player–bot collision the player is always the
attacker regardless of rpm; only a bot–bot collision selects the
higher-rpm bot as attacker, with ties going to the first body of the
pair; the knockback impulse goes to the defender, along the normalised
attacker-to-defender vector, which is a unit vector whenever the
positions are distinct. -/
theorem c1_attacker_rules (pr ra rb : ℚ) (pb ba bb : BodyInfo) :
    resolvePair (Contender.player pr pb) (Contender.bot ra true ba)
      = some (Contender.player pr pb, Contender.bot ra true ba)
    ∧ resolvePair (Contender.bot ra true ba) (Contender.player pr pb)
      = some (Contender.player pr pb, Contender.bot ra true ba)
    ∧ (rb ≤ ra → resolvePair (Contender.bot ra true ba) (Contender.bot rb true bb)
        = some (Contender.bot ra true ba, Contender.bot rb true bb))
    ∧ (ra < rb → resolvePair (Contender.bot ra true ba) (Contender.bot rb true bb)
        = some (Contender.bot rb true bb, Contender.bot ra true ba))
    ∧ (∀ att dfn : BodyInfo, ∀ dist aR dR rS : ℚ, ∀ boss : Bool,
        defenderImpulse att dfn dist aR dR rS boss
          = ((knockDir att dfn dist).1 * knockbackForce aR dR rS boss,
             (knockDir att dfn dist).2 * knockbackForce aR dR rS boss))
    ∧ (∀ att dfn : BodyInfo, ∀ dist : ℚ,
        dist * dist = (dfn.posX - att.posX) * (dfn.posX - att.posX)
            + (dfn.posY - att.posY) * (dfn.posY - att.posY) →
        0 < dist →
        (knockDir att dfn dist).1 * (knockDir att dfn dist).1
          + (knockDir att dfn dist).2 * (knockDir att dfn dist).2 = 1) := by
  have hbots : resolvePair (Contender.bot ra true ba) (Contender.bot rb true bb)
      = if rb ≤ ra then some (Contender.bot ra true ba, Contender.bot rb true bb)
        else some (Contender.bot rb true bb, Contender.bot ra true ba) := rfl
  refine ⟨rfl, rfl, ?_, ?_, ?_, ?_⟩
  · intro h
    rw [hbots, if_pos h]
  · intro h
    rw [hbots, if_neg (not_le.mpr h)]
  · intro att dfn dist aR dR rS boss
    rfl
  · intro att dfn dist hd hpos
    exact knockDir_unit att dfn dist hd hpos

/-- C1 witness: the amended selection rules applied at a concrete bot–bot
collision with rpm 80 versus 30, and the unit direction at a concrete
three-four-five displacement. -/
theorem c1_witness :
    resolvePair (Contender.bot 80 true ⟨0, 0, 0, 0⟩) (Contender.bot 30 true ⟨40, 0, 0, 0⟩)
      = some (Contender.bot 80 true ⟨0, 0, 0, 0⟩, Contender.bot 30 true ⟨40, 0, 0, 0⟩)
    ∧ (knockDir ⟨10, 0, 0, 0⟩ ⟨13, 4, 0, 0⟩ 5).1 * (knockDir ⟨10, 0, 0, 0⟩ ⟨13, 4, 0, 0⟩ 5).1
        + (knockDir ⟨10, 0, 0, 0⟩ ⟨13, 4, 0, 0⟩ 5).2 * (knockDir ⟨10, 0, 0, 0⟩ ⟨13, 4, 0, 0⟩ 5).2
        = 1 :=
  ⟨(c1_attacker_rules 0 80 30 ⟨0, 0, 0, 0⟩ ⟨0, 0, 0, 0⟩ ⟨40, 0, 0, 0⟩).2.2.1 (by norm_num),
   (c1_attacker_rules 0 80 30 ⟨0, 0, 0, 0⟩ ⟨0, 0, 0, 0⟩ ⟨40, 0, 0, 0⟩).2.2.2.2.2
     ⟨10, 0, 0, 0⟩ ⟨13, 4, 0, 0⟩ 5 (by norm_num) (by norm_num)⟩

end Gasing
